import Mathlib

/-!
Verification of the binding-store layer of networking-cisco.

We shallowly embed the database-binding functions of
`networking_cisco/plugins/ml2/drivers/cisco/nexus/nexus_db_v2.py`,
`networking_cisco/plugins/ml2/drivers/cisco/n1kv/n1kv_db.py` and the
notifier `networking_cisco/plugins/cisco/l3/rpc/l3_router_rpc_joint_agent_api.py`.

A database session is modelled as an explicit list of rows; SQLAlchemy
query finalizers (`all`, `one`, `first`) are modelled with their
documented semantics: `all` returns the (possibly empty) list of
matching rows and never raises `NoResultFound`; `one` raises
`NoResultFound` on zero matches and `MultipleResultsFound` on more
than one; `first` returns the first match or `None`.  Fallible
functions return `Except`.
-/

/-- A row of the `cisco_ml2_nexusport_bindings` table
(`nexus_models_v2.NexusPortBinding`): columns as used by
`nexus_db_v2.py`. -/
structure NexusPortBinding where
  port_id : String
  vlan_id : Nat
  vni : Nat
  switch_ip : String
  instance_id : String
  is_provider_vlan : Bool
deriving DecidableEq, Repr

/-- A keyword filter (`**bfilter`) over the Nexus port-binding columns:
`none` means the column is not constrained. -/
structure BFilter where
  port_id : Option String
  vlan_id : Option Nat
  vni : Option Nat
  switch_ip : Option String
  instance_id : Option String
  is_provider_vlan : Option Bool
deriving DecidableEq, Repr

/-- One keyword of a `filter_by` clause: unconstrained or equal to the
given value. -/
def optMatch {α : Type} [BEq α] (f : Option α) (v : α) : Bool :=
  match f with
  | none => true
  | some x => x == v

/-- `session.query(NexusPortBinding).filter_by(**bfilter)`: a row
matches when every constrained column equals the filter value. -/
def bmatch (f : BFilter) (b : NexusPortBinding) : Bool :=
  optMatch f.port_id b.port_id &&
  optMatch f.vlan_id b.vlan_id &&
  optMatch f.vni b.vni &&
  optMatch f.switch_ip b.switch_ip &&
  optMatch f.instance_id b.instance_id &&
  optMatch f.is_provider_vlan b.is_provider_vlan

/-- The rows of the session matching the filter. -/
def filterBy (st : List NexusPortBinding) (f : BFilter) : List NexusPortBinding :=
  st.filter (bmatch f)

/-- The SQLAlchemy ORM exceptions that the query finalizers can raise. -/
inductive SaExc where
  | noResultFound
  | multipleResultsFound
deriving DecidableEq, Repr

/-- The exceptions escaping the nexus_db_v2 functions:
`NexusPortBindingNotFound` (carrying the filter), an uncaught
SQLAlchemy `MultipleResultsFound`, and an integrity error on a
conflicting insert. -/
inductive NexusExc where
  | portBindingNotFound (f : BFilter)
  | saMultiple
  | conflict
deriving DecidableEq, Repr

/-- The dynamically-typed value a query finalizer returns in Python:
a list of rows (`all`), a single row (`one` / a non-null `first`),
or `None` (a null `first`). -/
inductive PyVal where
  | vlist (l : List NexusPortBinding)
  | vbind (b : NexusPortBinding)
  | vnone
deriving DecidableEq, Repr

/-- Python truthiness of a query result: an empty list and `None` are
falsy; a non-empty list and any row object are truthy. -/
def pyTruthy : PyVal → Bool
  | .vlist [] => false
  | .vlist (_ :: _) => true
  | .vbind _ => true
  | .vnone => false

/-- The query type selected by `getattr(query, query_type)` in
`_lookup_nexus_bindings`: `'all'`, `'one'` or `'first'`. -/
inductive QueryType where
  | all
  | one
  | first
deriving DecidableEq, Repr

/-- SQLAlchemy `Query.one()` on a result list: `NoResultFound` on zero
rows, the row on exactly one, `MultipleResultsFound` on more. -/
def queryOne {α : Type} (l : List α) : Except SaExc α :=
  match l with
  | [] => .error .noResultFound
  | [b] => .ok b
  | _ => .error .multipleResultsFound

/-- `query_method()` in `_lookup_nexus_bindings`: run the selected
finalizer over the filtered rows. -/
def runQuery (qt : QueryType) (st : List NexusPortBinding) (f : BFilter) :
    Except SaExc PyVal :=
  match qt with
  | .all => .ok (.vlist (filterBy st f))
  | .one =>
    match queryOne (filterBy st f) with
    | .ok b => .ok (.vbind b)
    | .error e => .error e
  | .first =>
    .ok (match (filterBy st f).head? with
         | none => .vnone
         | some b => .vbind b)

/-- `_lookup_nexus_bindings(query_type, session, **bfilter)`
(nexus_db_v2.py lines 133-152): run the query; if the result is truthy
return it; a `NoResultFound` is swallowed; in both falsy cases raise
`NexusPortBindingNotFound(**bfilter)`.  A `MultipleResultsFound` from
`one()` is not caught and propagates. -/
def _lookup_nexus_bindings (qt : QueryType) (st : List NexusPortBinding)
    (f : BFilter) : Except NexusExc PyVal :=
  match runQuery qt st f with
  | .ok v => if pyTruthy v then .ok v else .error (.portBindingNotFound f)
  | .error .noResultFound => .error (.portBindingNotFound f)
  | .error .multipleResultsFound => .error .saMultiple

/-- `_lookup_all_nexus_bindings(session, **bfilter)`. -/
def _lookup_all_nexus_bindings (st : List NexusPortBinding) (f : BFilter) :
    Except NexusExc PyVal :=
  _lookup_nexus_bindings .all st f

/-- `_lookup_one_nexus_binding(session, **bfilter)`. -/
def _lookup_one_nexus_binding (st : List NexusPortBinding) (f : BFilter) :
    Except NexusExc PyVal :=
  _lookup_nexus_bindings .one st f

/-- The filter used by `get_port_switch_bindings`. -/
def psFilter (port_id switch_ip : String) : BFilter :=
  ⟨some port_id, none, none, some switch_ip, none, none⟩

/-- `get_port_switch_bindings(port_id, switch_ip)`
(nexus_db_v2.py lines 115-124): an `all` lookup whose
`NexusPortBindingNotFound` is swallowed, making the function return
`None`; any other exception propagates. -/
def get_port_switch_bindings (st : List NexusPortBinding)
    (port_id switch_ip : String) : Except NexusExc (Option PyVal) :=
  match _lookup_all_nexus_bindings st (psFilter port_id switch_ip) with
  | .ok v => .ok (some v)
  | .error (.portBindingNotFound _) => .ok none
  | .error e => .error e

/-- Two rows agree on the store's effective primary key
(resource_id, segment_id, physical_target) =
(port_id, vlan_id, switch_ip). -/
def sameKey (a b : NexusPortBinding) : Bool :=
  a.port_id == b.port_id && a.vlan_id == b.vlan_id && a.switch_ip == b.switch_ip

/-- `add_nexusport_binding(port_id, vlan_id, vni, switch_ip,
instance_id, is_provider_vlan)` (nexus_db_v2.py lines 52-65):
`session.add(binding); session.flush()`.

Modelled from the spec: the `NexusPortBinding` ORM model and its table
constraints are declared outside src (imported from
`neutron.plugins.ml2.drivers.cisco.nexus.nexus_models_v2`); the spec
states insert fails with `ConflictError` when the uniqueness invariant
on (resource_id, segment_id, physical_target) would be violated, so
`session.flush` is modelled as enforcing that unique key. -/
def add_nexusport_binding (st : List NexusPortBinding) (port_id : String)
    (vlan_id vni : Nat) (switch_ip instance_id : String)
    (is_provider_vlan : Bool) :
    Except NexusExc (List NexusPortBinding × NexusPortBinding) :=
  let b : NexusPortBinding :=
    ⟨port_id, vlan_id, vni, switch_ip, instance_id, is_provider_vlan⟩
  if st.any (fun x => sameKey x b) then .error .conflict
  else .ok (st ++ [b], b)

/-- The full-column filter used by `remove_nexusport_binding`. -/
def rmFilter (port_id : String) (vlan_id vni : Nat)
    (switch_ip instance_id : String) (is_provider_vlan : Bool) : BFilter :=
  ⟨some port_id, some vlan_id, some vni, some switch_ip,
   some instance_id, some is_provider_vlan⟩

/-- Python iteration over a query result (`for bind in binding`). -/
def pvList : PyVal → List NexusPortBinding
  | .vlist l => l
  | .vbind b => [b]
  | .vnone => []

/-- `remove_nexusport_binding(...)` (nexus_db_v2.py lines 68-83): look
up all rows matching the full-column filter (raising
`NexusPortBindingNotFound` when none match), delete each found row,
flush, and return the found rows. -/
def remove_nexusport_binding (st : List NexusPortBinding) (port_id : String)
    (vlan_id vni : Nat) (switch_ip instance_id : String)
    (is_provider_vlan : Bool) :
    Except NexusExc (List NexusPortBinding × List NexusPortBinding) :=
  let f := rmFilter port_id vlan_id vni switch_ip instance_id is_provider_vlan
  match _lookup_all_nexus_bindings st f with
  | .ok v => .ok (st.filter (fun b => !(bmatch f b)), pvList v)
  | .error e => .error e

/-- Python truthiness of the `new_vlan_id` argument: `None` and `0`
are falsy. -/
def pyFalsyOptNat : Option Nat → Bool
  | none => true
  | some v => v == 0

/-- The filter used by `update_nexusport_binding`. -/
def portFilter (port_id : String) : BFilter :=
  ⟨some port_id, none, none, none, none, none⟩

/-- The row with its `vlan_id` column overwritten
(`binding.vlan_id = new_vlan_id`). -/
def setVlan (b : NexusPortBinding) (nv : Nat) : NexusPortBinding :=
  ⟨b.port_id, nv, b.vni, b.switch_ip, b.instance_id, b.is_provider_vlan⟩

/-- `session.merge(binding); session.flush()` after mutating the row
found by `one()`: the single row equal to `b` is replaced by `b2`. -/
def replaceRow (st : List NexusPortBinding) (b b2 : NexusPortBinding) :
    List NexusPortBinding :=
  st.map (fun x => if x = b then b2 else x)

/-- `update_nexusport_binding(port_id, new_vlan_id)` (nexus_db_v2.py
lines 86-97): a falsy `new_vlan_id` only logs a warning and returns
`None`; otherwise the unique row for `port_id` is looked up with the
`one` query and its `vlan_id` replaced.  The `.ok (st, none)` arm for
a non-row query result is unreachable: a successful `one` query always
yields a single row. -/
def update_nexusport_binding (st : List NexusPortBinding) (port_id : String)
    (new_vlan_id : Option Nat) :
    Except NexusExc (List NexusPortBinding × Option NexusPortBinding) :=
  if pyFalsyOptNat new_vlan_id then .ok (st, none)
  else
    match _lookup_one_nexus_binding st (portFilter port_id) with
    | .error e => .error e
    | .ok (.vbind b) =>
      let b2 := setVlan b (new_vlan_id.getD 0)
      .ok (replaceRow st b b2, some b2)
    | .ok _ => .ok (st, none)

/-- A row of the Nexus NVE binding table
(`nexus_models_v2.NexusNVEBinding`). -/
structure NexusNVEBinding where
  vni : Nat
  switch_ip : String
  device_id : String
  mcast_group : String
deriving DecidableEq, Repr

/-- SQLAlchemy `Query.all()` over the NVE table: returns the
(possibly empty) list of matching rows; it never raises
`NoResultFound`. -/
def nveAll (st : List NexusNVEBinding) (p : NexusNVEBinding → Bool) :
    Except SaExc (List NexusNVEBinding) :=
  .ok (st.filter p)

/-- `get_nve_vni_switch_bindings(vni, switch_ip)` (nexus_db_v2.py
lines 193-201): an `all` query whose `NoResultFound` handler returns
`None`. -/
def get_nve_vni_switch_bindings (st : List NexusNVEBinding) (vni : Nat)
    (switch_ip : String) : Except SaExc (Option (List NexusNVEBinding)) :=
  match nveAll st (fun b => b.vni == vni && b.switch_ip == switch_ip) with
  | .ok l => .ok (some l)
  | .error .noResultFound => .ok none
  | .error e => .error e

/-- `get_nve_vni_member_bindings(vni, switch_ip, device_id)`
(nexus_db_v2.py lines 204-213). -/
def get_nve_vni_member_bindings (st : List NexusNVEBinding) (vni : Nat)
    (switch_ip device_id : String) :
    Except SaExc (Option (List NexusNVEBinding)) :=
  match nveAll st (fun b => b.vni == vni && b.switch_ip == switch_ip &&
                            b.device_id == device_id) with
  | .ok l => .ok (some l)
  | .error .noResultFound => .ok none
  | .error e => .error e

/-- `get_nve_switch_bindings(switch_ip)` (nexus_db_v2.py
lines 216-224). -/
def get_nve_switch_bindings (st : List NexusNVEBinding)
    (switch_ip : String) : Except SaExc (Option (List NexusNVEBinding)) :=
  match nveAll st (fun b => b.switch_ip == switch_ip) with
  | .ok l => .ok (some l)
  | .error .noResultFound => .ok none
  | .error e => .error e

/-- `get_nve_vni_deviceid_bindings(vni, device_id)` (nexus_db_v2.py
lines 227-235). -/
def get_nve_vni_deviceid_bindings (st : List NexusNVEBinding) (vni : Nat)
    (device_id : String) : Except SaExc (Option (List NexusNVEBinding)) :=
  match nveAll st (fun b => b.vni == vni && b.device_id == device_id) with
  | .ok l => .ok (some l)
  | .error .noResultFound => .ok none
  | .error e => .error e

/-- A row of the N1kv network-to-network-profile binding table
(`n1kv_models.N1kvNetworkBinding`). -/
structure N1kvNetworkBinding where
  network_id : String
  network_type : String
  segmentation_id : Nat
  profile_id : String
deriving DecidableEq, Repr

/-- A row of the N1kv network-profile table
(`n1kv_models.NetworkProfile`). -/
structure NetworkProfile where
  id : String
  name : String
  segment_type : String
deriving DecidableEq, Repr

/-- A row of the N1kv port-to-policy-profile binding table
(`n1kv_models.N1kvPortBinding`). -/
structure N1kvPortBinding where
  port_id : String
  profile_id : String
deriving DecidableEq, Repr

/-- The exceptions escaping the n1kv_db functions:
`NetworkBindingNotFound`, `PortBindingNotFound`, an uncaught SQLAlchemy
`MultipleResultsFound`, and the in-use guard's error. -/
inductive N1kvExc where
  | networkBindingNotFound (network_id : String)
  | portBindingNotFound (port_id : String)
  | saMultiple
  | profileInUse
deriving DecidableEq, Repr

/-- `get_network_binding(network_id)` (n1kv_db.py lines 169-181): a
`one()` query over rows filtered by `network_id`; a `NoResultFound` is
converted to `NetworkBindingNotFound`; a `MultipleResultsFound`
propagates. -/
def get_network_binding (st : List N1kvNetworkBinding) (network_id : String) :
    Except N1kvExc N1kvNetworkBinding :=
  match queryOne (st.filter (fun b => b.network_id == network_id)) with
  | .ok b => .ok b
  | .error .noResultFound => .error (.networkBindingNotFound network_id)
  | .error .multipleResultsFound => .error .saMultiple

/-- `get_policy_binding(port_id)` (n1kv_db.py lines 201-214): a
`one()` query over rows filtered by `port_id`; a `NoResultFound` is
converted to `PortBindingNotFound`; a `MultipleResultsFound`
propagates. -/
def get_policy_binding (st : List N1kvPortBinding) (port_id : String) :
    Except N1kvExc N1kvPortBinding :=
  match queryOne (st.filter (fun b => b.port_id == port_id)) with
  | .ok b => .ok b
  | .error .noResultFound => .error (.portBindingNotFound port_id)
  | .error .multipleResultsFound => .error .saMultiple

/-- `remove_network_profile(netp_id)` (n1kv_db.py lines 89-101): a
`first()` query over rows filtered by `id`; if a row was found it is
deleted, otherwise nothing happens. -/
def remove_network_profile (st : List NetworkProfile) (netp_id : String) :
    List NetworkProfile :=
  match (st.filter (fun p => p.id == netp_id)).head? with
  | none => st
  | some _ => st.eraseP (fun p => p.id == netp_id)

/-- `policy_profile_in_use(profile_id)` (n1kv_db.py lines 156-166):
`bool(first())` over port bindings filtered by `profile_id`. -/
def policy_profile_in_use (pbs : List N1kvPortBinding) (profile_id : String) :
    Bool :=
  ((pbs.filter (fun b => b.profile_id == profile_id)).head?).isSome

/-- Modelled from the spec: the caller that guards profile deletion is
not under src (only the usage check `policy_profile_in_use` and the
row deletion `remove_network_profile` are); per the spec, delete of a
profile still referenced by a binding fails with `ProfileInUseError`,
and a profile is deleted only after the usage check finds no
referencing binding. -/
def delete_profile (profiles : List NetworkProfile)
    (pbs : List N1kvPortBinding) (profile_id : String) :
    Except N1kvExc (List NetworkProfile) :=
  if policy_profile_in_use pbs profile_id then .error .profileInUse
  else .ok (remove_network_profile profiles profile_id)

/-- A router as seen by `_agent_notification`: its id and the id of
its hosting device, where `none` embeds `router['hosting_device'] is
None`. -/
structure Router where
  id : String
  hosting_device : Option String
deriving DecidableEq, Repr

/-- One `cctxt.cast(context, method, routers=[router['id']])` call:
the agent host it is prepared for, the method name, and the router-id
payload. -/
structure AgentCast where
  host : String
  method : String
  router_ids : List String
deriving DecidableEq, Repr

/-- `L3RouterJointAgentNotifyAPI._agent_notification(context, method,
routers, operation, data)` (l3_router_rpc_joint_agent_api.py lines
36-53), returning the list of casts it emits: a router whose
`hosting_device` is `None` is skipped; otherwise one cast per cfg
agent returned by the plugin for that hosting device.  `ga` embeds the
external `self._l3plugin.get_cfg_agents_for_hosting_devices`, mapping
a hosting-device id to the hosts of its scheduled agents; `operation`
and `data` are accepted and unused, as in the source. -/
def _agent_notification (ga : String → List String) (method : String)
    (routers : List Router) (operation data : Option String) :
    List AgentCast :=
  routers.flatMap (fun r =>
    match r.hosting_device with
    | none => []
    | some hd => (ga hd).map (fun h => ⟨h, method, [r.id]⟩))

/-- `routers_updated(context, routers, operation, data)` (lines
60-68): notifies only when `routers` is truthy (non-empty). -/
def routers_updated (ga : String → List String) (routers : List Router)
    (operation data : Option String) : List AgentCast :=
  if routers.isEmpty then []
  else _agent_notification ga "routers_updated" routers operation data

/-- The single `hosting_devices_removed` cast: target host, the
hosting_data payload (a dict mapping hosting-device ids to affected
resource ids, embedded as an association list) and the deconfigure
flag. -/
structure HDCast where
  host : String
  hosting_data : List (String × List String)
  deconfigure : Bool
deriving DecidableEq, Repr

/-- `hosting_devices_removed(context, hosting_data, deconfigure,
host)` (lines 70-97): returns immediately when `hosting_data` is falsy
(empty dict); otherwise casts one message to the cfg agent at
`host`. -/
def hosting_devices_removed (hosting_data : List (String × List String))
    (deconfigure : Bool) (host : String) : List HDCast :=
  if hosting_data.isEmpty then []
  else [⟨host, hosting_data, deconfigure⟩]

/-- The spec's Binding data model (§3): an association between a
logical resource and a physical segment/target. -/
structure Binding where
  resource_id : String
  segment_id : Nat
  physical_target : String
  is_provider : Bool
deriving DecidableEq, Repr

/-- Binding Store `find` restricted to a resource key (§4.2 step 1). -/
def bfind (st : List Binding) (r : String) : List Binding :=
  st.filter (fun b => b.resource_id == r)

/-- The number of rows referencing a (segment, target) pair. -/
def refCount (st : List Binding) (s : Nat) (t : String) : Nat :=
  (st.filter (fun b => b.segment_id == s && b.physical_target == t)).length

/-- The provision/deprovision marks a reconciliation reports. -/
structure ReconResult where
  provision : List (Nat × String)
  deprovision : List (Nat × String)
deriving DecidableEq, Repr

/-- Modelled from the spec: the Binding Reconciler (§4.2) is driver
code not under src (only the insert primitives `add_nexusport_binding`
and `add_network_binding` are).  Per the spec's algorithm: look up the
bindings for `resource_id`; if none exist and the desired segment is
non-null, insert the binding and mark a brand-new (segment, target)
pair for provisioning; if a binding exists and differs from the
desired state, delete the old bindings, mark pairs whose reference
count reached zero for deprovisioning, and insert the new binding; if
the desired segment is null, delete the existing bindings and mark
unreferenced pairs for deprovisioning. -/
def reconcile (st : List Binding) (resource_id : String)
    (desired : Option Nat) (target : String) (is_provider : Bool) :
    List Binding × ReconResult :=
  let existing := bfind st resource_id
  match desired with
  | none =>
    let st1 := st.filter (fun b => !(b.resource_id == resource_id))
    let deprov := (existing.map (fun b => (b.segment_id, b.physical_target))).filter
      (fun q => refCount st1 q.1 q.2 == 0)
    (st1, ⟨[], deprov⟩)
  | some s =>
    let want : Binding := ⟨resource_id, s, target, is_provider⟩
    if existing = [] then
      let prov := if refCount st s target == 0 then [(s, target)] else []
      (st ++ [want], ⟨prov, []⟩)
    else if existing = [want] then
      (st, ⟨[], []⟩)
    else
      let st1 := st.filter (fun b => !(b.resource_id == resource_id))
      let deprov := (existing.map (fun b => (b.segment_id, b.physical_target))).filter
        (fun q => refCount st1 q.1 q.2 == 0)
      let prov := if refCount st1 s target == 0 then [(s, target)] else []
      (st1 ++ [want], ⟨prov, deprov⟩)

/-- C8: when the set of notification targets is empty, dispatch is a
no-op: a router whose hosting_device is None contributes no cast, an
empty routers list produces no notification, and
hosting_devices_removed with empty hosting_data sends nothing. -/
theorem dispatch_empty_noop (ga : String → List String) (method : String)
    (r : Router) (rest : List Router) (operation data : Option String)
    (deconfigure : Bool) (host : String) :
    (r.hosting_device = none →
      _agent_notification ga method (r :: rest) operation data =
        _agent_notification ga method rest operation data) ∧
    routers_updated ga [] operation data = [] ∧
    hosting_devices_removed [] deconfigure host = [] := by
  refine ⟨?_, rfl, rfl⟩
  intro h
  simp [_agent_notification, h]

/-- Witness for C8: a router without a hosting device is skipped. -/
theorem dispatch_empty_noop_witness :
    _agent_notification (fun _ => ["agent1"]) "routers_updated"
      [⟨"r1", none⟩] none none =
    _agent_notification (fun _ => ["agent1"]) "routers_updated" [] none none :=
  (dispatch_empty_noop (fun _ => ["agent1"]) "routers_updated"
    ⟨"r1", none⟩ [] none none false "h1").1 rfl

/-- C9: calling `update_nexusport_binding` with a falsy new vlan id
(`None` or `0`) returns no binding and leaves the store unchanged,
raising no error even when no binding exists for the port. -/
theorem update_falsy_noop (st : List NexusPortBinding) (port_id : String)
    (new_vlan_id : Option Nat) (h : pyFalsyOptNat new_vlan_id = true) :
    update_nexusport_binding st port_id new_vlan_id = .ok (st, none) := by
  simp [update_nexusport_binding, h]

/-- Witness for C9: updating with vlan id 0 on an empty store is a
no-op and raises nothing. -/
theorem update_falsy_noop_witness :
    update_nexusport_binding [] "p1" (some 0) = .ok ([], none) :=
  update_falsy_noop [] "p1" (some 0) rfl

/-- C10: every NVE-binding query ending in an `all` query returns the
possibly-empty list of matching rows and never returns `None`: the
`NoResultFound` handler is unreachable. -/
theorem nve_all_queries_total (st : List NexusNVEBinding) (vni : Nat)
    (switch_ip device_id : String) :
    get_nve_vni_switch_bindings st vni switch_ip =
      .ok (some (st.filter (fun b => b.vni == vni &&
        b.switch_ip == switch_ip))) ∧
    get_nve_vni_member_bindings st vni switch_ip device_id =
      .ok (some (st.filter (fun b => b.vni == vni &&
        b.switch_ip == switch_ip && b.device_id == device_id))) ∧
    get_nve_switch_bindings st switch_ip =
      .ok (some (st.filter (fun b => b.switch_ip == switch_ip))) ∧
    get_nve_vni_deviceid_bindings st vni device_id =
      .ok (some (st.filter (fun b => b.vni == vni &&
        b.device_id == device_id))) :=
  ⟨rfl, rfl, rfl, rfl⟩

/-- C4: `find_one` fails with a not-found error on zero matches, with
the ambiguity error (SQLAlchemy `MultipleResultsFound`) on more than
one, and returns the single row exactly when one matches — for the
nexus `_lookup_one_nexus_binding` and the n1kv `get_network_binding`. -/
theorem find_one_semantics (stN : List NexusPortBinding) (f : BFilter)
    (stB : List N1kvNetworkBinding) (nid : String) :
    (filterBy stN f = [] →
      _lookup_one_nexus_binding stN f = .error (.portBindingNotFound f)) ∧
    (∀ b, filterBy stN f = [b] →
      _lookup_one_nexus_binding stN f = .ok (.vbind b)) ∧
    (2 ≤ (filterBy stN f).length →
      _lookup_one_nexus_binding stN f = .error .saMultiple) ∧
    (stB.filter (fun x => x.network_id == nid) = [] →
      get_network_binding stB nid = .error (.networkBindingNotFound nid)) ∧
    (∀ b, stB.filter (fun x => x.network_id == nid) = [b] →
      get_network_binding stB nid = .ok b) ∧
    (2 ≤ (stB.filter (fun x => x.network_id == nid)).length →
      get_network_binding stB nid = .error .saMultiple) := by
  refine ⟨?_, ?_, ?_, ?_, ?_, ?_⟩
  · intro h
    simp [_lookup_one_nexus_binding, _lookup_nexus_bindings, runQuery,
          queryOne, h]
  · intro b h
    simp [_lookup_one_nexus_binding, _lookup_nexus_bindings, runQuery,
          queryOne, h, pyTruthy]
  · intro h
    rcases hl : filterBy stN f with _ | ⟨a, _ | ⟨c, rest⟩⟩
    · rw [hl] at h; simp at h
    · rw [hl] at h; simp at h
    · simp [_lookup_one_nexus_binding, _lookup_nexus_bindings, runQuery,
            queryOne, hl]
  · intro h
    simp [get_network_binding, queryOne, h]
  · intro b h
    simp [get_network_binding, queryOne, h]
  · intro h
    rcases hl : stB.filter (fun x => x.network_id == nid)
      with _ | ⟨a, _ | ⟨c, rest⟩⟩
    · rw [hl] at h; simp at h
    · rw [hl] at h; simp at h
    · simp [get_network_binding, queryOne, hl]

/-- Witness for C4: on the empty store the `one` lookup raises the
not-found error. -/
theorem find_one_semantics_witness :
    _lookup_one_nexus_binding [] (portFilter "p1") =
      .error (.portBindingNotFound (portFilter "p1")) :=
  (find_one_semantics [] (portFilter "p1") [] "n1").1 rfl

/-- C1 counterexample: the `all` lookup does not return an empty
sequence on an empty match — it raises `NexusPortBindingNotFound`. -/
theorem find_all_empty_raises_cex :
    _lookup_all_nexus_bindings [] (psFilter "p1" "1.1.1.1") =
      .error (.portBindingNotFound (psFilter "p1" "1.1.1.1")) ∧
    _lookup_all_nexus_bindings [] (psFilter "p1" "1.1.1.1") ≠
      .ok (.vlist []) := by
  refine ⟨rfl, ?_⟩
  intro h
  rw [show _lookup_all_nexus_bindings [] (psFilter "p1" "1.1.1.1") =
        .error (.portBindingNotFound (psFilter "p1" "1.1.1.1")) from rfl] at h
  exact Except.noConfusion h

/-- C1 amended: the `all` lookup returns the list of all matching
bindings when at least one matches; when none match it raises
`NexusPortBindingNotFound`; the existence-indifferent caller
`get_port_switch_bindings` converts that error into `None` rather
than an empty sequence. -/
theorem find_all_semantics (st : List NexusPortBinding) (f : BFilter)
    (port_id switch_ip : String) :
    (filterBy st f ≠ [] →
      _lookup_all_nexus_bindings st f = .ok (.vlist (filterBy st f))) ∧
    (filterBy st f = [] →
      _lookup_all_nexus_bindings st f = .error (.portBindingNotFound f)) ∧
    (filterBy st (psFilter port_id switch_ip) = [] →
      get_port_switch_bindings st port_id switch_ip = .ok none) := by
  refine ⟨?_, ?_, ?_⟩
  · intro h
    rcases hl : filterBy st f with _ | ⟨a, rest⟩
    · exact absurd hl h
    · simp [_lookup_all_nexus_bindings, _lookup_nexus_bindings, runQuery,
            hl, pyTruthy]
  · intro h
    simp [_lookup_all_nexus_bindings, _lookup_nexus_bindings, runQuery,
          h, pyTruthy]
  · intro h
    simp [get_port_switch_bindings, _lookup_all_nexus_bindings,
          _lookup_nexus_bindings, runQuery, h, pyTruthy]

/-- Witness for C1's amended theorem: a store whose single row matches
the filter is returned whole; an empty store raises. -/
theorem find_all_semantics_witness :
    _lookup_all_nexus_bindings [⟨"p1", 100, 0, "1.1.1.1", "vm1", false⟩]
      (psFilter "p1" "1.1.1.1") =
      .ok (.vlist [⟨"p1", 100, 0, "1.1.1.1", "vm1", false⟩]) :=
  (find_all_semantics [⟨"p1", 100, 0, "1.1.1.1", "vm1", false⟩]
    (psFilter "p1" "1.1.1.1") "p1" "1.1.1.1").1 (by decide)

/-- C2 counterexample: when no row matches, `remove_nexusport_binding`
is not a silent no-op — it raises `NexusPortBindingNotFound`. -/
theorem remove_binding_empty_raises_cex :
    remove_nexusport_binding [] "p1" 100 0 "1.1.1.1" "vm1" false =
      .error (.portBindingNotFound
        (rmFilter "p1" 100 0 "1.1.1.1" "vm1" false)) ∧
    remove_nexusport_binding [] "p1" 100 0 "1.1.1.1" "vm1" false ≠
      .ok ([], []) := by
  refine ⟨rfl, ?_⟩
  intro h
  rw [show remove_nexusport_binding [] "p1" 100 0 "1.1.1.1" "vm1" false =
        .error (.portBindingNotFound
          (rmFilter "p1" 100 0 "1.1.1.1" "vm1" false)) from rfl] at h
  exact Except.noConfusion h

/-- C2 amended: `remove_nexusport_binding` deletes all rows matching
the full-column filter and returns them when at least one matches, but
raises `NexusPortBindingNotFound` when none match; the n1kv
`remove_network_profile` deletes only the first matching row and is a
silent no-op when nothing matches. -/
theorem delete_semantics (st : List NexusPortBinding) (port_id : String)
    (vlan_id vni : Nat) (switch_ip instance_id : String)
    (is_provider_vlan : Bool) (ps : List NetworkProfile) (netp_id : String) :
    (filterBy st
        (rmFilter port_id vlan_id vni switch_ip instance_id is_provider_vlan)
        ≠ [] →
      remove_nexusport_binding st port_id vlan_id vni switch_ip instance_id
          is_provider_vlan =
        .ok (st.filter (fun b => !(bmatch
              (rmFilter port_id vlan_id vni switch_ip instance_id
                is_provider_vlan) b)),
             filterBy st
               (rmFilter port_id vlan_id vni switch_ip instance_id
                 is_provider_vlan))) ∧
    (filterBy st
        (rmFilter port_id vlan_id vni switch_ip instance_id is_provider_vlan)
        = [] →
      remove_nexusport_binding st port_id vlan_id vni switch_ip instance_id
          is_provider_vlan =
        .error (.portBindingNotFound
          (rmFilter port_id vlan_id vni switch_ip instance_id
            is_provider_vlan))) ∧
    (ps.filter (fun p => p.id == netp_id) = [] →
      remove_network_profile ps netp_id = ps) ∧
    (ps.filter (fun p => p.id == netp_id) ≠ [] →
      remove_network_profile ps netp_id =
        ps.eraseP (fun p => p.id == netp_id)) := by
  refine ⟨?_, ?_, ?_, ?_⟩
  · intro h
    rcases hl : filterBy st
        (rmFilter port_id vlan_id vni switch_ip instance_id is_provider_vlan)
      with _ | ⟨a, rest⟩
    · exact absurd hl h
    · simp [remove_nexusport_binding, _lookup_all_nexus_bindings,
            _lookup_nexus_bindings, runQuery, hl, pyTruthy, pvList]
  · intro h
    simp [remove_nexusport_binding, _lookup_all_nexus_bindings,
          _lookup_nexus_bindings, runQuery, h, pyTruthy]
  · intro h
    simp [remove_network_profile, h]
  · intro h
    rcases hl : ps.filter (fun p => p.id == netp_id) with _ | ⟨a, rest⟩
    · exact absurd hl h
    · simp [remove_network_profile, hl]

/-- Witness for C2's amended theorem: removing the single matching row
empties the store and returns the row. -/
theorem delete_semantics_witness :
    remove_nexusport_binding [⟨"p1", 100, 0, "1.1.1.1", "vm1", false⟩]
      "p1" 100 0 "1.1.1.1" "vm1" false =
      .ok ([], [⟨"p1", 100, 0, "1.1.1.1", "vm1", false⟩]) := by
  have h := (delete_semantics [⟨"p1", 100, 0, "1.1.1.1", "vm1", false⟩]
    "p1" 100 0 "1.1.1.1" "vm1" false [] "np1").1 (by decide)
  simpa using h

/-- C5 counterexample: when more than one binding exists for the port,
`update_nexusport_binding` neither raises the not-found error nor
replaces a binding — it raises SQLAlchemy `MultipleResultsFound`. -/
theorem update_multi_raises_cex :
    filterBy [⟨"portA", 100, 0, "sw1", "i1", false⟩,
              ⟨"portA", 200, 0, "sw2", "i1", false⟩]
      (portFilter "portA") ≠ [] ∧
    update_nexusport_binding
      [⟨"portA", 100, 0, "sw1", "i1", false⟩,
       ⟨"portA", 200, 0, "sw2", "i1", false⟩] "portA" (some 5) =
      .error .saMultiple := ⟨by decide, rfl⟩

/-- C5 amended: with a non-falsy new vlan id, the update raises the
not-found error when no binding exists for the port (never implicitly
creating one), replaces the vlan id of the unique binding when exactly
one exists, and raises `MultipleResultsFound` when several exist. -/
theorem update_semantics (st : List NexusPortBinding) (port_id : String)
    (nv : Nat) (hnv : nv ≠ 0) :
    (filterBy st (portFilter port_id) = [] →
      update_nexusport_binding st port_id (some nv) =
        .error (.portBindingNotFound (portFilter port_id))) ∧
    (∀ b, filterBy st (portFilter port_id) = [b] →
      update_nexusport_binding st port_id (some nv) =
        .ok (replaceRow st b (setVlan b nv), some (setVlan b nv))) ∧
    (2 ≤ (filterBy st (portFilter port_id)).length →
      update_nexusport_binding st port_id (some nv) =
        .error .saMultiple) := by
  have hfal : pyFalsyOptNat (some nv) = false := by
    simp [pyFalsyOptNat, hnv]
  refine ⟨?_, ?_, ?_⟩
  · intro h
    simp [update_nexusport_binding, hfal, _lookup_one_nexus_binding,
          _lookup_nexus_bindings, runQuery, queryOne, h]
  · intro b h
    simp [update_nexusport_binding, hfal, _lookup_one_nexus_binding,
          _lookup_nexus_bindings, runQuery, queryOne, h, pyTruthy]
  · intro h
    rcases hl : filterBy st (portFilter port_id) with _ | ⟨a, _ | ⟨c, rest⟩⟩
    · rw [hl] at h; simp at h
    · rw [hl] at h; simp at h
    · simp [update_nexusport_binding, hfal, _lookup_one_nexus_binding,
            _lookup_nexus_bindings, runQuery, queryOne, hl]

/-- Witness for C5's amended theorem: updating the unique binding for
a port rewrites its vlan id. -/
theorem update_semantics_witness :
    update_nexusport_binding [⟨"p1", 100, 0, "1.1.1.1", "vm1", false⟩]
      "p1" (some 200) =
      .ok ([⟨"p1", 200, 0, "1.1.1.1", "vm1", false⟩],
           some ⟨"p1", 200, 0, "1.1.1.1", "vm1", false⟩) := by
  have h := ((update_semantics [⟨"p1", 100, 0, "1.1.1.1", "vm1", false⟩]
    "p1" 200 (by decide)).2.1) ⟨"p1", 100, 0, "1.1.1.1", "vm1", false⟩
    (by decide)
  simpa [replaceRow, setVlan] using h

/-- The store's uniqueness invariant: no two rows share the
(port_id, vlan_id, switch_ip) key tuple. -/
def Uniq (st : List NexusPortBinding) : Prop :=
  st.Pairwise (fun a b => sameKey a b = false)

/-- C3: starting from a store satisfying the uniqueness invariant,
inserting a binding whose key tuple already exists fails with the
conflict error (leaving the store unchanged, since no new store is
produced), and every store an insert does produce satisfies the
invariant. -/
theorem insert_conflict_preserves_unique (st : List NexusPortBinding)
    (port_id : String) (vlan_id vni : Nat) (switch_ip instance_id : String)
    (is_provider_vlan : Bool) (h : Uniq st) :
    ((∃ x ∈ st, sameKey x ⟨port_id, vlan_id, vni, switch_ip, instance_id,
        is_provider_vlan⟩ = true) →
      add_nexusport_binding st port_id vlan_id vni switch_ip instance_id
        is_provider_vlan = .error .conflict) ∧
    (∀ st' b, add_nexusport_binding st port_id vlan_id vni switch_ip
        instance_id is_provider_vlan = .ok (st', b) → Uniq st') := by
  constructor
  · intro hex
    have hany : st.any (fun x => sameKey x ⟨port_id, vlan_id, vni, switch_ip,
        instance_id, is_provider_vlan⟩) = true := by
      rw [List.any_eq_true]
      obtain ⟨x, hx, hk⟩ := hex
      exact ⟨x, hx, hk⟩
    simp [add_nexusport_binding, hany]
  · intro st' b hok
    by_cases hany : st.any (fun x => sameKey x ⟨port_id, vlan_id, vni,
        switch_ip, instance_id, is_provider_vlan⟩) = true
    · simp [add_nexusport_binding, hany] at hok
    · have hnone : ∀ x ∈ st, sameKey x ⟨port_id, vlan_id, vni, switch_ip,
          instance_id, is_provider_vlan⟩ = false := by
        intro x hx
        by_contra hc
        exact hany (List.any_eq_true.mpr ⟨x, hx, by
          cases hxk : sameKey x ⟨port_id, vlan_id, vni, switch_ip,
            instance_id, is_provider_vlan⟩
          · exact absurd hxk hc
          · rfl⟩)
      simp [add_nexusport_binding, hany] at hok
      rw [← hok.1]
      unfold Uniq
      rw [List.pairwise_append]
      refine ⟨h, List.pairwise_singleton _ _, ?_⟩
      intro a ha b2 hb2
      rw [List.mem_singleton] at hb2
      rw [hb2]
      exact hnone a ha
  
/-- Witness for C3: inserting a row whose (port_id, vlan_id,
switch_ip) key already exists — with different vni and instance_id —
is rejected with the conflict error. -/
theorem insert_conflict_preserves_unique_witness :
    add_nexusport_binding [⟨"p1", 100, 0, "1.1.1.1", "vm1", false⟩]
      "p1" 100 5 "1.1.1.1" "vm2" true = .error .conflict :=
  (insert_conflict_preserves_unique
    [⟨"p1", 100, 0, "1.1.1.1", "vm1", false⟩]
    "p1" 100 5 "1.1.1.1" "vm2" true (by simp [Uniq])).1 (by decide)

/-- The usage check is truthy exactly when some port binding
references the profile. -/
lemma policy_profile_in_use_iff (pbs : List N1kvPortBinding)
    (profile_id : String) :
    policy_profile_in_use pbs profile_id = true ↔
      ∃ b ∈ pbs, b.profile_id = profile_id := by
  unfold policy_profile_in_use
  rw [Option.isSome_iff_exists]
  constructor
  · rintro ⟨a, ha⟩
    have hmem : a ∈ pbs.filter (fun b => b.profile_id == profile_id) := by
      rcases hfl : pbs.filter (fun b => b.profile_id == profile_id)
        with _ | ⟨x, xs⟩
      · rw [hfl] at ha; cases ha
      · rw [hfl] at ha
        simp only [List.head?_cons, Option.some.injEq] at ha
        rw [hfl, ha]
        exact List.mem_cons_self a xs
    have hm := List.mem_filter.mp hmem
    exact ⟨a, hm.1, by simpa using hm.2⟩
  · rintro ⟨b, hb, hpid⟩
    rcases hfl : pbs.filter (fun x => x.profile_id == profile_id)
      with _ | ⟨x, xs⟩
    · exfalso
      have : b ∈ pbs.filter (fun x => x.profile_id == profile_id) :=
        List.mem_filter.mpr ⟨hb, by simp [hpid]⟩
      rw [hfl] at this
      cases this
    · exact ⟨x, by rw [hfl]; rfl⟩

/-- C6: deleting a profile that is still referenced by at least one
binding fails with the in-use error; a profile row is removed only
when the usage check finds no referencing binding. -/
theorem delete_profile_guard (profiles : List NetworkProfile)
    (pbs : List N1kvPortBinding) (profile_id : String) :
    ((∃ b ∈ pbs, b.profile_id = profile_id) →
      delete_profile profiles pbs profile_id = .error .profileInUse) ∧
    (∀ ps, delete_profile profiles pbs profile_id = .ok ps →
      (∀ b ∈ pbs, b.profile_id ≠ profile_id) ∧
      ps = remove_network_profile profiles profile_id) := by
  constructor
  · intro hex
    have hu := (policy_profile_in_use_iff pbs profile_id).mpr hex
    simp [delete_profile, hu]
  · intro ps hok
    by_cases hu : policy_profile_in_use pbs profile_id = true
    · simp [delete_profile, hu] at hok
    · have hne : ∀ b ∈ pbs, b.profile_id ≠ profile_id := by
        intro b hb hc
        exact hu ((policy_profile_in_use_iff pbs profile_id).mpr ⟨b, hb, hc⟩)
      have hu2 : policy_profile_in_use pbs profile_id = false := by
        cases hx : policy_profile_in_use pbs profile_id
        · rfl
        · exact absurd hx hu
      simp [delete_profile, hu2] at hok
      exact ⟨hne, hok.symm⟩

/-- Witness for C6: deleting a profile referenced by one port binding
raises the in-use error. -/
theorem delete_profile_guard_witness :
    delete_profile [⟨"prof1", "netp", "vlan"⟩] [⟨"port1", "prof1"⟩]
      "prof1" = .error .profileInUse :=
  (delete_profile_guard [⟨"prof1", "netp", "vlan"⟩] [⟨"port1", "prof1"⟩]
    "prof1").1 ⟨⟨"port1", "prof1"⟩, by decide⟩

/-- Rows filtered away by resource id contain no binding for that
resource. -/
lemma bfind_filter_not (st : List Binding) (r : String) :
    bfind (st.filter (fun b => !(b.resource_id == r))) r = [] := by
  unfold bfind
  rw [List.filter_eq_nil_iff]
  intro a ha
  have h2 := (List.mem_filter.mp ha).2
  simp at h2
  simp [h2]

/-- After reconciling a non-null desired segment, the store holds
exactly the desired binding for the resource. -/
lemma bfind_reconcile (st : List Binding) (r : String) (s : Nat)
    (t : String) (p : Bool) :
    bfind (reconcile st r (some s) t p).1 r = [⟨r, s, t, p⟩] := by
  unfold reconcile
  by_cases h1 : bfind st r = []
  · simp only [h1, if_pos]
    unfold bfind at h1 ⊢
    simp [List.filter_append, h1]
  · by_cases h2 : bfind st r = [(⟨r, s, t, p⟩ : Binding)]
    · simp only [h1, h2, if_neg, if_pos]
      simpa using h2
    · simp only [h1, h2, if_neg]
      have h3 := bfind_filter_not st r
      unfold bfind at h3 ⊢
      simp [List.filter_append, h3]

/-- A reconcile whose desired binding is already the resource's only
binding does nothing. -/
lemma reconcile_noop_of_bfind (st1 : List Binding) (r : String) (s : Nat)
    (t : String) (p : Bool) (h : bfind st1 r = [⟨r, s, t, p⟩]) :
    reconcile st1 r (some s) t p = (st1, ⟨[], []⟩) := by
  simp [reconcile, h]

/-- C7: reconciliation is idempotent — after a reconcile with a
non-null desired segment succeeds, running it again with identical
arguments leaves the Binding Store unchanged and reports no further
provisioning or deprovisioning work. -/
theorem reconcile_idempotent (st : List Binding) (resource_id : String)
    (s : Nat) (target : String) (is_provider : Bool) :
    reconcile (reconcile st resource_id (some s) target is_provider).1
        resource_id (some s) target is_provider =
      ((reconcile st resource_id (some s) target is_provider).1,
       ⟨[], []⟩) :=
  reconcile_noop_of_bfind _ resource_id s target is_provider
    (bfind_reconcile st resource_id s target is_provider)
